import Mathlib

/-!
# Certificate watchdog of the `webhook` command

A shallow embedding of `cmd/webhook.go`: the `Run` function of `webhookCmd`
(startup gate, watchdog goroutine, manager bootstrap).

Conventions of the embedding

* `time.Time` and `time.Duration` are integers counting nanoseconds.  The sum
  `crds.LookaheadInterval+time.Minute` is a Go constant expression, so it cannot
  wrap; no modular arithmetic is involved.
* A Go `error` is `Option Error`; `none` is `nil`.
* Everything the function does to the outside world (log lines, calls into
  `crds`, `context`, `ctrl`, `os`) is appended, in program order, to a trace of
  `Effect`s.  The answers of the outside world are inputs: an `Env` for the
  bootstrap thread, and the `Event`s received by the `select` of the goroutine.
* `crds.LookaheadInterval` is declared in package `crds`, outside this file; it
  is an explicit parameter `LookaheadInterval` of the goroutine model.
* The goroutine and the bootstrap thread share the variable `err` without
  synchronisation.  The goroutine reads it once, at line 86, right after its own
  assignment at line 85; an assignment of the bootstrap thread that falls
  between the two is part of the event the goroutine handles (`tickRaced`).
  The other direction, a goroutine step between an assignment and a test of the
  bootstrap thread, is obtained by composing `setupAssign`, `watchdogStep` and
  `setupTest`.
-/

namespace Webhook

/-! ## Time -/

/-- A `time.Time`, as nanoseconds on an unbounded time line. -/
abbrev Time := Int

/-- A `time.Duration`, in nanoseconds. -/
abbrev Duration := Int

/-- The constant `time.Second`. -/
def Second : Duration := 1000000000

/-- The constant `time.Minute`. -/
def Minute : Duration := 60 * Second

/-- The constant `time.Hour`. -/
def Hour : Duration := 60 * Minute

/-- The method `Time.Add`. -/
def Time.Add (t : Time) (d : Duration) : Time := t + d

/-! ## Data -/

/-- A non-nil Go `error` value (its message). -/
abbrev Error := String

/-- The struct `crds.CertInfo`, with the four fields set at lines 58-63. -/
structure CertInfo where
  CertDir : String
  CertName : String
  KeyName : String
  CAName : String
deriving DecidableEq, Repr

/-- The two signals registered with `signal.Notify` at line 77. -/
inductive Signal where
  | SIGINT
  | SIGTERM
deriving DecidableEq, Repr

/-- Observable actions of `Run`, in the order the program performs them. -/
inductive Effect where
  /-- The call `setupLog.Info(msg)`. -/
  | info (msg : String)
  /-- The call `setupLog.Error(err, msg, kv...)`. -/
  | error (msg : String) (kv : List String)
  /-- The call `os.Exit(code)`. -/
  | exit (code : Int)
  /-- The call `crds.CheckCerts(c, dnsName, deadline)`. -/
  | checkCerts (c : CertInfo) (dnsName : String) (deadline : Time)
  /-- The call `context.WithCancel(context.Background())`. -/
  | withCancel
  /-- The `go` statement starting the watchdog with its three arguments. -/
  | spawn (c : CertInfo) (dnsName : String) (every : Duration)
  /-- The call `signal.Notify(sigs, ...)`. -/
  | notify (sigs : List Signal)
  /-- The call `time.NewTicker(every)`. -/
  | newTicker (every : Duration)
  /-- One invocation of the `cancel` function of the context. -/
  | cancel
  /-- The call `ctrl.GetConfigOrDie()`. -/
  | getConfig
  /-- The call `ctrl.NewManager(...)`. -/
  | newManager
  /-- One call `SetupWebhookWithManager(mgr)`, named by its webhook. -/
  | setupWebhook (name : String)
  /-- The call `mgr.Start(ctx)`. -/
  | mgrStart
deriving DecidableEq, Repr

/-- The variables of `Run` that the watchdog closure captures by reference,
together with the trace.  `err` is the variable declared at line 53 (the
goroutine assigns it at line 85 with `=`; lines 94-124 assign and test the same
variable).  `cancelled` says whether `ctx` is done. -/
structure State where
  err : Option Error
  cancelled : Bool
  trace : List Effect
deriving DecidableEq, Repr

/-- Append effects to the trace. -/
def State.emit (st : State) (es : List Effect) : State :=
  { st with trace := st.trace ++ es }

/-- The call `cancel()`: a `context.CancelFunc` marks the context done; calls
after the first one leave the context as it is. -/
def State.cancel (st : State) : State :=
  { st with cancelled := true, trace := st.trace ++ [Effect.cancel] }

/-! ## The watchdog goroutine (lines 75-92) -/

/-- What one iteration of the `select` receives.  A tick carries the value that
`time.Now()` returns while it is handled and the answer `crds.CheckCerts` gives
at that moment, as a function of its three arguments.  During a `tick` the
bootstrap thread does not assign `err` between lines 85 and 86; during a
`tickRaced` it does, and `v` is the value of its last such assignment. -/
inductive Event where
  | sig (s : Signal)
  | tick (now : Time) (check : CertInfo → String → Time → Option Error)
  | tickRaced (now : Time) (check : CertInfo → String → Time → Option Error)
      (v : Option Error)

/-- The deadline expression of line 85:
`time.Now().Add(crds.LookaheadInterval+time.Minute)`. -/
def tickDeadline (LookaheadInterval : Duration) (now : Time) : Time :=
  Time.Add now (LookaheadInterval + Minute)

/-- Lines 84-85: the log line, the call of `crds.CheckCerts` and the
assignment of its result to the captured `err`. -/
def tickAssign (LookaheadInterval : Duration) (c : CertInfo) (dnsName : String)
    (st : State) (now : Time) (check : CertInfo → String → Time → Option Error) : State :=
  let st := st.emit [Effect.info "validating certs"]
  let deadline := tickDeadline LookaheadInterval now
  { st.emit [Effect.checkCerts c dnsName deadline] with err := check c dnsName deadline }

/-- Lines 86-89: the test of `err`, `cancel()` when it is not `nil`, and the
closing log line. -/
def tickTest (st : State) : State :=
  let st : State := if st.err.isSome then st.cancel else st
  st.emit [Effect.info "certs are valid"]

/-- An assignment of the value `v` to `err` by the bootstrap thread (lines 94
and 104-124), seen from the goroutine. -/
def bootstrapAssign (v : Option Error) (st : State) : State :=
  { st with err := v }

/-- One iteration of the `for { select { ... } }` loop, lines 79-91. -/
def watchdogStep (LookaheadInterval : Duration) (c : CertInfo) (dnsName : String)
    (st : State) : Event → State
  | Event.sig _ => st.cancel
  | Event.tick now check =>
    tickTest (tickAssign LookaheadInterval c dnsName st now check)
  | Event.tickRaced now check v =>
    tickTest (bootstrapAssign v (tickAssign LookaheadInterval c dnsName st now check))

/-- The loop of lines 79-91 run over the events received; the source loop has
no `return` or `break`, so every event is handled. -/
def watchdogLoop (LookaheadInterval : Duration) (c : CertInfo) (dnsName : String)
    (st : State) (events : List Event) : State :=
  events.foldl (watchdogStep LookaheadInterval c dnsName) st

/-- The goroutine body, lines 76-91, with its three arguments `c`, `dnsName`
and `every`.  The argument `every` is used once, to create the ticker;
`time.NewTicker` panics on a non-positive duration, which is reported as
`none`. -/
def watchdog (LookaheadInterval : Duration) (c : CertInfo) (dnsName : String)
    (every : Duration) (st : State) (events : List Event) : Option State :=
  let st := st.emit [Effect.notify [Signal.SIGINT, Signal.SIGTERM]]
  if every ≤ 0 then none
  else
    let st := st.emit [Effect.newTicker every]
    some (watchdogLoop LookaheadInterval c dnsName st events)

/-- The deadlines of the `crds.CheckCerts` calls recorded in a trace, in order. -/
def validatorDeadlines (tr : List Effect) : List Time :=
  tr.filterMap fun e => match e with
    | Effect.checkCerts _ _ deadline => some deadline
    | _ => none

/-- The values of `time.Now()` of the timer ticks among the events, in order. -/
def tickTimes (events : List Event) : List Time :=
  events.filterMap fun e => match e with
    | Event.tick now _ => some now
    | Event.tickRaced now _ _ => some now
    | Event.sig _ => none

/-- Number of `crds.CheckCerts` calls recorded in a trace. -/
def validatorCalls (tr : List Effect) : Nat :=
  tr.countP fun e => match e with
    | Effect.checkCerts _ _ _ => true
    | _ => false

/-- Number of `cancel()` invocations recorded in a trace. -/
def cancelCalls (tr : List Effect) : Nat :=
  tr.count Effect.cancel

/-- Number of timer ticks among the events. -/
def tickCount (events : List Event) : Nat :=
  events.countP fun e => match e with
    | Event.tick _ _ => true
    | Event.tickRaced _ _ _ => true
    | Event.sig _ => false

/-- Whether the event is a tick on which `crds.CheckCerts`, called as line 85
calls it, returns an error. -/
def Event.failedTick (LookaheadInterval : Duration) (c : CertInfo) (dnsName : String) :
    Event → Bool
  | Event.sig _ => false
  | Event.tick now check => (check c dnsName (tickDeadline LookaheadInterval now)).isSome
  | Event.tickRaced now check _ =>
    (check c dnsName (tickDeadline LookaheadInterval now)).isSome

/-- Whether the event is a tick on which `crds.CheckCerts`, called as line 85
calls it, returns `nil`. -/
def Event.okTick (LookaheadInterval : Duration) (c : CertInfo) (dnsName : String) :
    Event → Bool
  | Event.sig _ => false
  | Event.tick now check => (check c dnsName (tickDeadline LookaheadInterval now)).isNone
  | Event.tickRaced now check _ =>
    (check c dnsName (tickDeadline LookaheadInterval now)).isNone

/-- Whether the event is a termination signal. -/
def Event.isSig : Event → Bool
  | Event.sig _ => true
  | Event.tick _ _ => false
  | Event.tickRaced _ _ _ => false

/-- Whether the bootstrap thread assigns `err` between lines 85 and 86 while
the event is handled. -/
def Event.raced : Event → Bool
  | Event.sig _ => false
  | Event.tick _ _ => false
  | Event.tickRaced _ _ _ => true

/-- Whether handling the event invokes `cancel()`: always for a signal; for a
tick, when the `err` tested at line 86 is not `nil`. -/
def Event.fires (L : Duration) (c : CertInfo) (dnsName : String) : Event → Bool
  | Event.sig _ => true
  | Event.tick now check => (check c dnsName (tickDeadline L now)).isSome
  | Event.tickRaced _ _ v => v.isSome

/-- Number of iterations of the loop at which the context goes from live to
done. -/
def closings (L : Duration) (c : CertInfo) (dnsName : String) : State → List Event → Nat
  | _, [] => 0
  | st, e :: es =>
    (if !st.cancelled && (watchdogStep L c dnsName st e).cancelled then 1 else 0) +
      closings L c dnsName (watchdogStep L c dnsName st e) es

/-! ## The bootstrap thread (lines 52-74 and 94-132) -/

/-- The package-level flag variables read by `Run`, set in `init` (lines
138-142). -/
structure Flags where
  metricsAddr : String
  dnsName : String
  certDir : String
  loglevel : String
  certCheckInterval : Duration
deriving DecidableEq, Repr

/-- The flag defaults of lines 138-142. -/
def Flags.defaults : Flags :=
  { metricsAddr := ":8080"
    dnsName := "localhost"
    certDir := "/tmp/k8s-webhook-server/serving-certs"
    loglevel := "info"
    certCheckInterval := 5 * Minute }

/-- The answers of the outside world to the calls of the bootstrap thread. -/
structure Env where
  /-- Result of `lvl.UnmarshalText([]byte(loglevel))`. -/
  unmarshalText : String → Option Error
  /-- Value of `time.Now()` at line 69. -/
  now : Time
  /-- Result of `crds.CheckCerts` at line 69. -/
  checkCerts : CertInfo → String → Time → Option Error
  /-- Failure of `ctrl.GetConfigOrDie` to load a configuration. -/
  getConfig : Option Error
  /-- Error result of `ctrl.NewManager`. -/
  newManager : Option Error
  /-- Result of `SetupWebhookWithManager` for the named webhook. -/
  setupWebhook : String → Option Error
  /-- Result of `mgr.Start(ctx)`. -/
  mgrStart : Option Error

/-- How a run of (a part of) `Run` ends: `exitCode` is `some n` when
`os.Exit(n)` was called and `none` when control went on. -/
structure Result where
  exitCode : Option Int
  state : State
deriving DecidableEq, Repr

/-- The constant `errCreateWebhook`. -/
def errCreateWebhook : String := "unable to create webhook"

/-- The `crds.CertInfo` built at lines 58-63. -/
def certInfo (flags : Flags) : CertInfo :=
  { CertDir := flags.certDir
    CertName := "tls.crt"
    KeyName := "tls.key"
    CAName := "ca.crt" }

/-- The deadline expression of line 69: `time.Now().Add(time.Hour)`. -/
def startupDeadline (now : Time) : Time :=
  Time.Add now Hour

/-- Lines 52-92 of `Run`, up to and including the `go` statement: parse the log
level, validate the certificates once, create the context and start the
watchdog. -/
def startup (flags : Flags) (env : Env) : Result :=
  let st : State := { err := env.unmarshalText flags.loglevel, cancelled := false, trace := [] }
  if st.err.isSome then
    ⟨some 1, st.emit [Effect.error "error unmarshalling loglevel" [], Effect.exit 1]⟩
  else
    let c := certInfo flags
    let st := st.emit [Effect.info "validating certs"]
    let deadline := startupDeadline env.now
    let st : State := { st.emit [Effect.checkCerts c flags.dnsName deadline] with
                        err := env.checkCerts c flags.dnsName deadline }
    if st.err.isSome then
      ⟨some 1, st.emit [Effect.error "error checking certs" [], Effect.exit 1]⟩
    else
      let st := st.emit [Effect.withCancel]
      let st := st.emit [Effect.spawn c flags.dnsName flags.certCheckInterval]
      ⟨none, st⟩

/-- The call and the assignment of
`if err = (...).SetupWebhookWithManager(mgr); err != nil`. -/
def setupAssign (env : Env) (name : String) (st : State) : State :=
  bootstrapAssign (env.setupWebhook name) (st.emit [Effect.setupWebhook name])

/-- The test `err != nil` of the same statement, and its body. -/
def setupTest (name : String) (st : State) : Result :=
  if st.err.isSome then
    ⟨some 1, st.emit [Effect.error errCreateWebhook ["webhook", name], Effect.exit 1]⟩
  else
    ⟨none, st⟩

/-- The six webhooks registered at lines 104-127, in order. -/
def webhookNames : List String :=
  ["ExternalSecret-v1beta1", "SecretStore-v1beta1", "ClusterSecretStore-v1beta1",
   "ExternalSecret-v1alpha1", "SecretStore-v1alpha1", "ClusterSecretStore-v1alpha1"]

/-- Lines 104-127: the registrations, one after the other, stopping at the
first failure. -/
def setupWebhooks (env : Env) : State → List String → Result
  | st, [] => ⟨none, st⟩
  | st, name :: rest =>
    let r := setupTest name (setupAssign env name st)
    if r.exitCode.isSome then r else setupWebhooks env r.state rest

/-- Lines 94-132 of `Run`, as executed when no watchdog step interleaves.
The argument `ctrl.GetConfigOrDie()` of line 94 is evaluated first; when no
configuration can be loaded it ends the process with `os.Exit(1)` (its own log
line goes to the logger of the library and is not recorded). -/
def bootstrap (env : Env) (st : State) : Result :=
  let st := st.emit [Effect.getConfig]
  if env.getConfig.isSome then
    ⟨some 1, st.emit [Effect.exit 1]⟩
  else
    let st : State := bootstrapAssign env.newManager (st.emit [Effect.newManager])
    if st.err.isSome then
      ⟨some 1, st.emit [Effect.error "unable to start manager" [], Effect.exit 1]⟩
    else
      let r := setupWebhooks env st webhookNames
      if r.exitCode.isSome then r
      else
        let st := r.state.emit [Effect.info "starting manager", Effect.mgrStart]
        -- line 129 declares its own `err` with `:=`, local to the `if`
        if env.mgrStart.isSome then
          ⟨some 1, st.emit [Effect.error "problem running manager" [], Effect.exit 1]⟩
        else
          ⟨none, st⟩

/-- The function `Run` of `webhookCmd`, bootstrap thread. -/
def Run (flags : Flags) (env : Env) : Result :=
  let r := startup flags env
  if r.exitCode.isSome then r else bootstrap env r.state

/-! ## The validator, as the specification describes it -/

/-- The validity window of the leaf certificate in the store. -/
structure Cert where
  notBefore : Time
  notAfter : Time
deriving DecidableEq, Repr

/-- Modelled from the spec: the certificate validator `crds.CheckCerts`, whose
code is in package `crds` and not in `cmd/webhook.go`.  For a readable,
parsable store it checks `now ≥ not-before` (else not-yet-valid) and then
`not-after ≥ deadline` (else expired-by-deadline); it is valid exactly when
both hold. -/
def specCheckCerts (cert : Cert) (now : Time) : CertInfo → String → Time → Option Error :=
  fun _ _ deadline =>
    if now < cert.notBefore then some "not-yet-valid"
    else if cert.notAfter < deadline then some "expired-by-deadline"
    else none

/-! ## Sample inputs -/

/-- A sample value for the constant `crds.LookaheadInterval`: ninety days. -/
def sampleLookahead : Duration := 90 * 24 * Hour

/-- A state for the watchdog to start in: `err` is `nil`, the context is live,
the trace is empty. -/
def freshState : State :=
  { err := none, cancelled := false, trace := [] }

/-- A validator answer: the certificates are fine. -/
def checkOk : CertInfo → String → Time → Option Error :=
  fun _ _ _ => none

/-- A validator answer: the certificates are rejected. -/
def checkBad : CertInfo → String → Time → Option Error :=
  fun _ _ _ => some "certificate is not valid"

/-- An environment in which every call of the bootstrap thread succeeds. -/
def envAllOk : Env :=
  { unmarshalText := fun _ => none
    now := 0
    checkCerts := checkOk
    getConfig := none
    newManager := none
    setupWebhook := fun _ => none
    mgrStart := none }

/-- An environment in which the startup validation fails and every other call
succeeds. -/
def envBadCerts : Env :=
  { envAllOk with checkCerts := checkBad }

/-- An environment in which the validator behaves as the specification says on
the certificate `cert`, the startup check runs at time `now`, and every other
call succeeds. -/
def envWithCert (cert : Cert) (now : Time) : Env :=
  { envAllOk with now := now, checkCerts := specCheckCerts cert now }

/-- The deadlines handed to the validator when the goroutine is started with
ticker interval `every` and receives one tick at time `now`; `none` when the
goroutine panics. -/
def deadlinesSeen (L : Duration) (every : Duration) (now : Time) : Option (List Time) :=
  (watchdog L (certInfo Flags.defaults) "localhost" every freshState
    [Event.tick now checkOk]).map fun st => validatorDeadlines st.trace

/-! ## Lemmas on one step and on the loop -/

theorem watchdogStep_sig (L : Duration) (c : CertInfo) (dnsName : String) (st : State)
    (s : Signal) :
    watchdogStep L c dnsName st (Event.sig s) =
      { st with cancelled := true, trace := st.trace ++ [Effect.cancel] } := rfl

theorem watchdogStep_tick_failed (L : Duration) (c : CertInfo) (dnsName : String) (st : State)
    (now : Time) (check : CertInfo → String → Time → Option Error)
    (h : (check c dnsName (tickDeadline L now)).isSome) :
    watchdogStep L c dnsName st (Event.tick now check) =
      { err := check c dnsName (tickDeadline L now)
        cancelled := true
        trace := st.trace ++ [Effect.info "validating certs",
          Effect.checkCerts c dnsName (tickDeadline L now), Effect.cancel,
          Effect.info "certs are valid"] } := by
  simp [watchdogStep, tickTest, tickAssign, State.emit, State.cancel, h]

theorem watchdogStep_tick_ok (L : Duration) (c : CertInfo) (dnsName : String) (st : State)
    (now : Time) (check : CertInfo → String → Time → Option Error)
    (h : (check c dnsName (tickDeadline L now)).isNone) :
    watchdogStep L c dnsName st (Event.tick now check) =
      { err := none
        cancelled := st.cancelled
        trace := st.trace ++ [Effect.info "validating certs",
          Effect.checkCerts c dnsName (tickDeadline L now),
          Effect.info "certs are valid"] } := by
  have h0 : check c dnsName (tickDeadline L now) = none := by
    simpa [Option.isNone_iff_eq_none] using h
  simp [watchdogStep, tickTest, tickAssign, State.emit, State.cancel, h0]

theorem watchdogStep_tickRaced_some (L : Duration) (c : CertInfo) (dnsName : String)
    (st : State) (now : Time) (check : CertInfo → String → Time → Option Error)
    (e : Error) :
    watchdogStep L c dnsName st (Event.tickRaced now check (some e)) =
      { err := some e
        cancelled := true
        trace := st.trace ++ [Effect.info "validating certs",
          Effect.checkCerts c dnsName (tickDeadline L now), Effect.cancel,
          Effect.info "certs are valid"] } := by
  simp [watchdogStep, tickTest, tickAssign, bootstrapAssign, State.emit, State.cancel]

theorem watchdogStep_tickRaced_none (L : Duration) (c : CertInfo) (dnsName : String)
    (st : State) (now : Time) (check : CertInfo → String → Time → Option Error) :
    watchdogStep L c dnsName st (Event.tickRaced now check none) =
      { err := none
        cancelled := st.cancelled
        trace := st.trace ++ [Effect.info "validating certs",
          Effect.checkCerts c dnsName (tickDeadline L now),
          Effect.info "certs are valid"] } := by
  simp [watchdogStep, tickTest, tickAssign, bootstrapAssign, State.emit, State.cancel]

theorem watchdogLoop_nil (L : Duration) (c : CertInfo) (dnsName : String) (st : State) :
    watchdogLoop L c dnsName st [] = st := rfl

theorem watchdogLoop_cons (L : Duration) (c : CertInfo) (dnsName : String) (st : State)
    (e : Event) (es : List Event) :
    watchdogLoop L c dnsName st (e :: es) =
      watchdogLoop L c dnsName (watchdogStep L c dnsName st e) es := rfl

theorem watchdogLoop_append (L : Duration) (c : CertInfo) (dnsName : String) (st : State)
    (es fs : List Event) :
    watchdogLoop L c dnsName st (es ++ fs) =
      watchdogLoop L c dnsName (watchdogLoop L c dnsName st es) fs := by
  simp [watchdogLoop, List.foldl_append]

theorem watchdogStep_cancelled_mono (L : Duration) (c : CertInfo) (dnsName : String)
    (st : State) (e : Event) (h : st.cancelled = true) :
    (watchdogStep L c dnsName st e).cancelled = true := by
  cases e with
  | sig s => rfl
  | tick now check =>
    cases hc : check c dnsName (tickDeadline L now) with
    | none =>
      rw [watchdogStep_tick_ok L c dnsName st now check (by simp [hc])]
      exact h
    | some err =>
      rw [watchdogStep_tick_failed L c dnsName st now check (by simp [hc])]
  | tickRaced now check v =>
    cases v with
    | none => rw [watchdogStep_tickRaced_none]; exact h
    | some err => rw [watchdogStep_tickRaced_some]

theorem watchdogLoop_cancelled_mono (L : Duration) (c : CertInfo) (dnsName : String)
    (events : List Event) :
    ∀ st : State, st.cancelled = true → (watchdogLoop L c dnsName st events).cancelled = true := by
  induction events with
  | nil => intro st h; exact h
  | cons e es ih =>
    intro st h
    rw [watchdogLoop_cons]
    exact ih _ (watchdogStep_cancelled_mono L c dnsName st e h)

theorem validatorCalls_step (L : Duration) (c : CertInfo) (dnsName : String)
    (st : State) (e : Event) :
    validatorCalls (watchdogStep L c dnsName st e).trace =
      validatorCalls st.trace + tickCount [e] := by
  cases e with
  | sig s => simp [watchdogStep_sig, validatorCalls, tickCount, List.countP_append]
  | tick now check =>
    cases hc : check c dnsName (tickDeadline L now) with
    | none =>
      rw [watchdogStep_tick_ok L c dnsName st now check (by simp [hc])]
      simp [validatorCalls, tickCount, List.countP_append, List.countP_cons]
    | some err =>
      rw [watchdogStep_tick_failed L c dnsName st now check (by simp [hc])]
      simp [validatorCalls, tickCount, List.countP_append, List.countP_cons]
  | tickRaced now check v =>
    cases v with
    | none =>
      rw [watchdogStep_tickRaced_none]
      simp [validatorCalls, tickCount, List.countP_append, List.countP_cons]
    | some err =>
      rw [watchdogStep_tickRaced_some]
      simp [validatorCalls, tickCount, List.countP_append, List.countP_cons]

theorem validatorCalls_loop (L : Duration) (c : CertInfo) (dnsName : String)
    (events : List Event) :
    ∀ st : State, validatorCalls (watchdogLoop L c dnsName st events).trace =
      validatorCalls st.trace + tickCount events := by
  induction events with
  | nil => intro st; simp [watchdogLoop_nil, tickCount]
  | cons e es ih =>
    intro st
    rw [watchdogLoop_cons, ih, validatorCalls_step]
    simp only [tickCount, List.countP_cons, List.countP_nil]
    omega

theorem cancelCalls_step (L : Duration) (c : CertInfo) (dnsName : String)
    (st : State) (e : Event) :
    cancelCalls (watchdogStep L c dnsName st e).trace =
      cancelCalls st.trace + (if e.fires L c dnsName then 1 else 0) := by
  cases e with
  | sig s => simp [watchdogStep_sig, cancelCalls, Event.fires, List.count_append]
  | tick now check =>
    cases hc : check c dnsName (tickDeadline L now) with
    | none =>
      rw [watchdogStep_tick_ok L c dnsName st now check (by simp [hc])]
      simp [cancelCalls, Event.fires, hc, List.count_append, List.count_cons]
    | some err =>
      rw [watchdogStep_tick_failed L c dnsName st now check (by simp [hc])]
      simp [cancelCalls, Event.fires, hc, List.count_append, List.count_cons]
  | tickRaced now check v =>
    cases v with
    | none =>
      rw [watchdogStep_tickRaced_none]
      simp [cancelCalls, Event.fires, List.count_append, List.count_cons]
    | some err =>
      rw [watchdogStep_tickRaced_some]
      simp [cancelCalls, Event.fires, List.count_append, List.count_cons]

theorem cancelCalls_loop (L : Duration) (c : CertInfo) (dnsName : String)
    (events : List Event) :
    ∀ st : State, cancelCalls (watchdogLoop L c dnsName st events).trace =
      cancelCalls st.trace + events.countP (Event.fires L c dnsName) := by
  induction events with
  | nil => intro st; simp [watchdogLoop_nil]
  | cons e es ih =>
    intro st
    rw [watchdogLoop_cons, ih, cancelCalls_step, List.countP_cons]
    omega

theorem fires_of_isSig (L : Duration) (c : CertInfo) (dnsName : String) (e : Event)
    (h : e.isSig = true) : e.fires L c dnsName = true := by
  cases e with
  | sig s => rfl
  | tick now check => simp [Event.isSig] at h
  | tickRaced now check v => simp [Event.isSig] at h

theorem fires_of_not_raced (L : Duration) (c : CertInfo) (dnsName : String) (e : Event)
    (h : e.raced = false) :
    e.fires L c dnsName = (e.isSig || e.failedTick L c dnsName) := by
  cases e with
  | sig s => rfl
  | tick now check => simp [Event.fires, Event.isSig, Event.failedTick]
  | tickRaced now check v => simp [Event.raced] at h

theorem validatorDeadlines_step (L : Duration) (c : CertInfo) (dnsName : String)
    (st : State) (e : Event) :
    validatorDeadlines (watchdogStep L c dnsName st e).trace =
      validatorDeadlines st.trace ++ (tickTimes [e]).map (fun now => now + L + Minute) := by
  cases e with
  | sig s => simp [watchdogStep_sig, validatorDeadlines, tickTimes, List.filterMap_append]
  | tick now check =>
    cases hc : check c dnsName (tickDeadline L now) with
    | none =>
      rw [watchdogStep_tick_ok L c dnsName st now check (by simp [hc])]
      simp [validatorDeadlines, tickTimes, List.filterMap_append, List.filterMap_cons,
        tickDeadline, Time.Add, add_assoc]
    | some err =>
      rw [watchdogStep_tick_failed L c dnsName st now check (by simp [hc])]
      simp [validatorDeadlines, tickTimes, List.filterMap_append, List.filterMap_cons,
        tickDeadline, Time.Add, add_assoc]
  | tickRaced now check v =>
    cases v with
    | none =>
      rw [watchdogStep_tickRaced_none]
      simp [validatorDeadlines, tickTimes, List.filterMap_append, List.filterMap_cons,
        tickDeadline, Time.Add, add_assoc]
    | some err =>
      rw [watchdogStep_tickRaced_some]
      simp [validatorDeadlines, tickTimes, List.filterMap_append, List.filterMap_cons,
        tickDeadline, Time.Add, add_assoc]

theorem validatorDeadlines_loop (L : Duration) (c : CertInfo) (dnsName : String)
    (events : List Event) :
    ∀ st : State, validatorDeadlines (watchdogLoop L c dnsName st events).trace =
      validatorDeadlines st.trace ++ (tickTimes events).map (fun now => now + L + Minute) := by
  induction events with
  | nil => intro st; simp [watchdogLoop_nil, tickTimes]
  | cons e es ih =>
    intro st
    rw [watchdogLoop_cons, ih, validatorDeadlines_step]
    cases e with
    | sig s => simp [tickTimes]
    | tick now check => simp [tickTimes, List.filterMap_cons]
    | tickRaced now check v => simp [tickTimes, List.filterMap_cons]

theorem closings_of_cancelled (L : Duration) (c : CertInfo) (dnsName : String)
    (events : List Event) :
    ∀ st : State, st.cancelled = true → closings L c dnsName st events = 0 := by
  induction events with
  | nil => intro st _; rfl
  | cons e es ih =>
    intro st h
    simp [closings, h, ih _ (watchdogStep_cancelled_mono L c dnsName st e h)]

theorem closings_le_one (L : Duration) (c : CertInfo) (dnsName : String)
    (events : List Event) :
    ∀ st : State, closings L c dnsName st events ≤ 1 := by
  induction events with
  | nil => intro st; simp [closings]
  | cons e es ih =>
    intro st
    cases hc : (watchdogStep L c dnsName st e).cancelled with
    | false =>
      have := ih (watchdogStep L c dnsName st e)
      simp [closings, hc, this]
    | true =>
      have h0 := closings_of_cancelled L c dnsName es _ hc
      simp only [closings, h0]
      split <;> omega

theorem watchdog_of_pos (L : Duration) (c : CertInfo) (dnsName : String)
    (every : Duration) (st : State) (events : List Event) (h : 0 < every) :
    watchdog L c dnsName every st events =
      some (watchdogLoop L c dnsName
        ((st.emit [Effect.notify [Signal.SIGINT, Signal.SIGTERM]]).emit
          [Effect.newTicker every]) events) := by
  simp [watchdog, not_le.mpr h]

theorem deadlinesSeen_eq (L : Duration) (every : Duration) (now : Time) (h : 0 < every) :
    deadlinesSeen L every now = some [now + L + Minute] := by
  unfold deadlinesSeen
  rw [watchdog_of_pos _ _ _ _ _ _ h, Option.map_some', validatorDeadlines_loop]
  simp [State.emit, validatorDeadlines, tickTimes, freshState]

/-! ## The startup gate -/

/-- C1. Startup gate: whenever the startup validation, called with the deadline
`now + 1 hour`, returns an error, `Run` ends in `os.Exit(1)` (a non-zero
status, the last effect of the trace) and its trace holds no creation of the
cancellation context, no start of the watchdog, no construction of the manager
and no call of `mgr.Start`. -/
theorem C1_startup_gate (flags : Flags) (env : Env)
    (h : (env.checkCerts (certInfo flags) flags.dnsName (env.now + Hour)).isSome) :
    (Run flags env).exitCode = some 1 ∧
    (Run flags env).state.trace.getLast? = some (Effect.exit 1) ∧
    Effect.withCancel ∉ (Run flags env).state.trace ∧
    (∀ c dnsName every, Effect.spawn c dnsName every ∉ (Run flags env).state.trace) ∧
    Effect.newManager ∉ (Run flags env).state.trace ∧
    Effect.mgrStart ∉ (Run flags env).state.trace := by
  have h1 : (env.checkCerts (certInfo flags) flags.dnsName (startupDeadline env.now)).isSome :=
    h
  cases hl : env.unmarshalText flags.loglevel with
  | some e => simp [Run, startup, State.emit, hl]
  | none => simp [Run, startup, State.emit, hl, h1]

/-- A run of C1 on the default flags with a failing startup validation. -/
theorem C1_startup_gate_witness :
    (envBadCerts.checkCerts (certInfo Flags.defaults) Flags.defaults.dnsName
        (envBadCerts.now + Hour)).isSome ∧
    (Run Flags.defaults envBadCerts).exitCode = some 1 ∧
    Effect.mgrStart ∉ (Run Flags.defaults envBadCerts).state.trace :=
  ⟨by decide, (C1_startup_gate Flags.defaults envBadCerts (by decide)).1,
    (C1_startup_gate Flags.defaults envBadCerts (by decide)).2.2.2.2.2⟩

/-! ## One iteration of the watchdog -/

/-- C3. Termination signals are honoured unconditionally: in every state of
the loop, handling a signal (SIGINT or SIGTERM) leaves the context cancelled,
its only effect is one `cancel()`, and the validator is not called; no
validation outcome and no time enters the step. -/
theorem C3_signal_cancels_without_validation (L : Duration) (c : CertInfo) (dnsName : String)
    (st : State) (s : Signal) :
    (watchdogStep L c dnsName st (Event.sig s)).cancelled = true ∧
    (watchdogStep L c dnsName st (Event.sig s)).trace = st.trace ++ [Effect.cancel] ∧
    validatorCalls (watchdogStep L c dnsName st (Event.sig s)).trace =
      validatorCalls st.trace := by
  refine ⟨rfl, rfl, ?_⟩
  rw [validatorCalls_step]
  simp [tickCount]

/-! ## Runs of the watchdog -/

/-- C4, as stated, fails: after a SIGTERM has cancelled the context, the loop
handles the next tick and calls the validator. -/
theorem C4_counterexample :
    (watchdogLoop sampleLookahead (certInfo Flags.defaults) "localhost" freshState
      [Event.sig Signal.SIGTERM]).cancelled = true ∧
    validatorCalls (watchdogLoop sampleLookahead (certInfo Flags.defaults) "localhost"
      freshState [Event.sig Signal.SIGTERM]).trace = 0 ∧
    validatorCalls (watchdogLoop sampleLookahead (certInfo Flags.defaults) "localhost"
      freshState [Event.sig Signal.SIGTERM, Event.tick (5 * Minute) checkOk]).trace = 1 := by
  decide

/-- C4, amended. Cancellation is terminal for the context, not for the loop:
from a state in which the cancellation has fired, over every sequence of events
the context stays cancelled, and the loop handles every later tick, calling the
validator once on each. -/
theorem C4_cancelled_stays_loop_goes_on (L : Duration) (c : CertInfo) (dnsName : String)
    (st : State) (events : List Event) (h : st.cancelled = true) :
    (watchdogLoop L c dnsName st events).cancelled = true ∧
    validatorCalls (watchdogLoop L c dnsName st events).trace =
      validatorCalls st.trace + tickCount events :=
  ⟨watchdogLoop_cancelled_mono L c dnsName events st h, validatorCalls_loop L c dnsName events st⟩

/-- Two ticks handled after a signal. -/
theorem C4_cancelled_stays_loop_goes_on_witness :
    (watchdogStep sampleLookahead (certInfo Flags.defaults) "localhost" freshState
      (Event.sig Signal.SIGINT)).cancelled = true ∧
    validatorCalls (watchdogLoop sampleLookahead (certInfo Flags.defaults) "localhost"
      (watchdogStep sampleLookahead (certInfo Flags.defaults) "localhost" freshState
        (Event.sig Signal.SIGINT))
      [Event.tick (5 * Minute) checkBad, Event.tick (10 * Minute) checkOk]).trace =
      validatorCalls (watchdogStep sampleLookahead (certInfo Flags.defaults) "localhost"
        freshState (Event.sig Signal.SIGINT)).trace +
      tickCount [Event.tick (5 * Minute) checkBad, Event.tick (10 * Minute) checkOk] :=
  ⟨rfl, (C4_cancelled_stays_loop_goes_on sampleLookahead (certInfo Flags.defaults) "localhost"
    (watchdogStep sampleLookahead (certInfo Flags.defaults) "localhost" freshState
      (Event.sig Signal.SIGINT))
    [Event.tick (5 * Minute) checkBad, Event.tick (10 * Minute) checkOk] rfl).2⟩

/-- C5, as stated, fails: a failed validation followed by a termination signal
invokes `cancel()` twice. -/
theorem C5_counterexample :
    cancelCalls (watchdogLoop sampleLookahead (certInfo Flags.defaults) "localhost" freshState
      [Event.tick (5 * Minute) checkBad, Event.sig Signal.SIGTERM]).trace = 2 := by
  decide

/-- C5, amended. Over every sequence of events the loop invokes `cancel()` once
for each signal and at most once for each handled event; when the bootstrap
thread assigns `err` during none of the ticks, the invocations are exactly one
per signal and one per tick whose validation fails; and the context goes from
live to cancelled at most once. -/
theorem C5_cancel_per_event_and_single_closing (L : Duration) (c : CertInfo)
    (dnsName : String) (st : State) (events : List Event) :
    cancelCalls st.trace + events.countP Event.isSig ≤
      cancelCalls (watchdogLoop L c dnsName st events).trace ∧
    cancelCalls (watchdogLoop L c dnsName st events).trace ≤
      cancelCalls st.trace + events.length ∧
    ((∀ e ∈ events, e.raced = false) →
      cancelCalls (watchdogLoop L c dnsName st events).trace =
        cancelCalls st.trace +
          events.countP (fun e => e.isSig || e.failedTick L c dnsName)) ∧
    closings L c dnsName st events ≤ 1 := by
  refine ⟨?_, ?_, ?_, closings_le_one L c dnsName events st⟩
  · rw [cancelCalls_loop]
    exact Nat.add_le_add_left
      (List.countP_mono_left (fun e _ he => fires_of_isSig L c dnsName e he)) _
  · rw [cancelCalls_loop]
    exact Nat.add_le_add_left (List.countP_le_length _) _
  · intro h
    rw [cancelCalls_loop]
    congr 1
    apply List.countP_congr
    intro e he
    rw [fires_of_not_raced L c dnsName e (h e he)]

/-- A failed tick and a signal, neither raced: two invocations. -/
theorem C5_cancel_per_event_and_single_closing_witness :
    (∀ e ∈ [Event.tick (5 * Minute) checkBad, Event.sig Signal.SIGTERM], e.raced = false) ∧
    cancelCalls (watchdogLoop sampleLookahead (certInfo Flags.defaults) "localhost" freshState
      [Event.tick (5 * Minute) checkBad, Event.sig Signal.SIGTERM]).trace =
      cancelCalls freshState.trace +
        [Event.tick (5 * Minute) checkBad, Event.sig Signal.SIGTERM].countP
          (fun e => e.isSig || e.failedTick sampleLookahead (certInfo Flags.defaults)
            "localhost") :=
  ⟨by intro e he; simp at he; rcases he with rfl | rfl <;> rfl,
    (C5_cancel_per_event_and_single_closing sampleLookahead (certInfo Flags.defaults)
      "localhost" freshState [Event.tick (5 * Minute) checkBad, Event.sig Signal.SIGTERM]).2.2.1
      (by intro e he; simp at he; rcases he with rfl | rfl <;> rfl)⟩

/-- C6, as stated, fails: with ticker intervals of five and of ten minutes the
validator receives the same deadline, and no value of `crds.LookaheadInterval`
makes the deadline `now + T + 1 minute` for both intervals. -/
theorem C6_counterexample :
    deadlinesSeen sampleLookahead (5 * Minute) 0 = some [sampleLookahead + Minute] ∧
    deadlinesSeen sampleLookahead (10 * Minute) 0 = some [sampleLookahead + Minute] ∧
    ¬ ∃ L : Duration,
      deadlinesSeen L (5 * Minute) 0 = some [0 + 5 * Minute + Minute] ∧
      deadlinesSeen L (10 * Minute) 0 = some [0 + 10 * Minute + Minute] := by
  refine ⟨by decide, by decide, ?_⟩
  rintro ⟨L, h5, h10⟩
  rw [deadlinesSeen_eq L (5 * Minute) 0 (by decide)] at h5
  rw [deadlinesSeen_eq L (10 * Minute) 0 (by decide)] at h10
  simp only [Option.some.injEq, List.cons.injEq, and_true] at h5 h10
  have hM : Minute = 60000000000 := by decide
  rw [hM] at h5 h10
  linarith

/-- C6, amended. For every positive ticker interval `every` and every sequence
of events, the deadline handed to the validator on a tick handled at time `now`
is `now + crds.LookaheadInterval + 1 minute`; the interval does not enter it. -/
theorem C6_deadline_uses_lookahead (L : Duration) (c : CertInfo) (dnsName : String)
    (every : Duration) (st : State) (events : List Event) (h : 0 < every) :
    ∃ st1, watchdog L c dnsName every st events = some st1 ∧
      validatorDeadlines st1.trace =
        validatorDeadlines st.trace ++ (tickTimes events).map (fun now => now + L + Minute) := by
  refine ⟨_, watchdog_of_pos L c dnsName every st events h, ?_⟩
  rw [validatorDeadlines_loop]
  simp [State.emit, validatorDeadlines, List.filterMap_append]

/-- Two ticks with a five-minute interval. -/
theorem C6_deadline_uses_lookahead_witness :
    (0 : Duration) < 5 * Minute ∧
    ∃ st1, watchdog sampleLookahead (certInfo Flags.defaults) "localhost" (5 * Minute)
        freshState [Event.tick (5 * Minute) checkOk, Event.tick (10 * Minute) checkOk] = some st1 ∧
      validatorDeadlines st1.trace =
        validatorDeadlines freshState.trace ++
          (tickTimes [Event.tick (5 * Minute) checkOk, Event.tick (10 * Minute) checkOk]).map
            (fun now => now + sampleLookahead + Minute) :=
  ⟨by decide, C6_deadline_uses_lookahead sampleLookahead (certInfo Flags.defaults) "localhost"
    (5 * Minute) freshState [Event.tick (5 * Minute) checkOk, Event.tick (10 * Minute) checkOk]
    (by decide)⟩

/-- C7, as stated, fails.  First run: `--check-interval=0`, startup check at
time 0 on a certificate with not-after one hour later, which passes; the
goroutine creates its ticker 59 minutes later, so not-after lies within
`T + 1 minute` of its start; `time.NewTicker(0)` panics, and there is neither a
startup abort nor a tick nor a cancellation.  Second run: interval one hour,
`crds.LookaheadInterval` zero, startup check at time 0, ticker created one
second later, not-after exactly `T + 1 minute` after that, first tick on time;
the startup check passes, the deadline of the first tick equals not-after, the
validation succeeds and the context is live after the tick. -/
theorem C7_counterexample :
    ((startup { Flags.defaults with certCheckInterval := 0 }
        (envWithCert { notBefore := 0, notAfter := Hour } 0)).exitCode = none ∧
      (Hour : Time) ≤ 59 * Minute + 0 + Minute ∧
      watchdog sampleLookahead (certInfo Flags.defaults) "localhost" 0
        (startup { Flags.defaults with certCheckInterval := 0 }
          (envWithCert { notBefore := 0, notAfter := Hour } 0)).state [] = none) ∧
    ((startup { Flags.defaults with certCheckInterval := Hour }
        (envWithCert { notBefore := 0, notAfter := Second + Hour + Minute } 0)).exitCode
        = none ∧
      (Second + Hour + Minute : Time) ≤ Second + Hour + Minute ∧
      (watchdog 0 (certInfo Flags.defaults) "localhost" Hour
        (startup { Flags.defaults with certCheckInterval := Hour }
          (envWithCert { notBefore := 0, notAfter := Second + Hour + Minute } 0)).state
        [Event.tick (Second + Hour)
          (specCheckCerts { notBefore := 0, notAfter := Second + Hour + Minute }
            (Second + Hour))]).map
        (fun st => st.cancelled) = some false) := by
  decide

/-- C7, amended. No missed early-expiry window, with the validator behaving as
the specification says: let the ticker be created at time `start` with a
positive interval `T`, so that the first tick is handled at some
`now1 ≥ start + T`, let `crds.LookaheadInterval` be positive, and let the
certificate have `notAfter ≤ start + T + 1 minute`.  Then the validation of the
first tick fails and, when the bootstrap thread does not assign `err` during
that tick, the context is cancelled once the tick is handled, whatever signals
arrive before it.  The starting state is arbitrary, so this covers the state
left by a startup that did not abort. -/
theorem C7_cancelled_by_first_tick (L : Duration) (c : CertInfo) (dnsName : String)
    (st : State) (T : Duration) (start now1 : Time) (cert : Cert) (sigs : List Signal)
    (hL : 0 < L) (hT : 0 < T) (htick : start + T ≤ now1)
    (hcert : cert.notAfter ≤ start + T + Minute) :
    (Event.tick now1 (specCheckCerts cert now1)).failedTick L c dnsName = true ∧
    ∃ st1, watchdog L c dnsName T st
        (sigs.map Event.sig ++ [Event.tick now1 (specCheckCerts cert now1)]) = some st1 ∧
      st1.cancelled = true := by
  have hfail : (specCheckCerts cert now1 c dnsName (tickDeadline L now1)).isSome = true := by
    unfold specCheckCerts
    by_cases hb : now1 < cert.notBefore
    · simp [hb]
    · have hd : cert.notAfter < tickDeadline L now1 := by
        simp only [tickDeadline, Time.Add]
        linarith
      simp [hb, hd]
  refine ⟨hfail, _, watchdog_of_pos L c dnsName T st _ hT, ?_⟩
  rw [watchdogLoop_append, watchdogLoop_cons, watchdogLoop_nil,
    watchdogStep_tick_failed L c dnsName _ now1 _ hfail]

/-- The scenario of C7: a certificate valid for ten minutes with five of them
left when the ticker is created, a five-minute interval, the first tick on
time. -/
theorem C7_cancelled_by_first_tick_witness :
    (0 : Duration) < sampleLookahead ∧ (0 : Duration) < 5 * Minute ∧
    (0 : Time) + 5 * Minute ≤ 5 * Minute ∧
    (5 * Minute : Time) ≤ 0 + 5 * Minute + Minute ∧
    ∃ st1, watchdog sampleLookahead (certInfo Flags.defaults) "localhost" (5 * Minute) freshState
        (([] : List Signal).map Event.sig ++
          [Event.tick (5 * Minute)
            (specCheckCerts { notBefore := -(5 * Minute), notAfter := 5 * Minute } (5 * Minute))])
        = some st1 ∧
      st1.cancelled = true :=
  ⟨by decide, by decide, by decide, by decide,
    (C7_cancelled_by_first_tick sampleLookahead (certInfo Flags.defaults) "localhost" freshState
      (5 * Minute) 0 (5 * Minute) { notBefore := -(5 * Minute), notAfter := 5 * Minute } []
      (by decide) (by decide) (by decide) (by decide)).2⟩

/-! ## Defects -/

/-- C2, the code at the failing input: the validator returns an error on the
tick, the bootstrap thread assigns `nil` to `err` between lines 85 and 86, and
the goroutine, testing the shared variable, handles the whole tick without
invoking `cancel()`; the context is live after the tick. -/
theorem C2_raced_failed_tick_skips_cancel :
    (Event.tickRaced (5 * Minute) checkBad none).failedTick sampleLookahead
      (certInfo Flags.defaults) "localhost" = true ∧
    (watchdogStep sampleLookahead (certInfo Flags.defaults) "localhost" freshState
      (Event.tickRaced (5 * Minute) checkBad none)).cancelled = false ∧
    (watchdogStep sampleLookahead (certInfo Flags.defaults) "localhost" freshState
      (Event.tickRaced (5 * Minute) checkBad none)).trace =
      [Effect.info "validating certs",
       Effect.checkCerts (certInfo Flags.defaults) "localhost"
         (5 * Minute + (sampleLookahead + Minute)),
       Effect.info "certs are valid"] := by
  decide

/-- C8, the code at the failing input: the validator returns success on the
tick, no signal is delivered, the bootstrap thread assigns an error to `err`
between lines 85 and 86, and the goroutine invokes `cancel()`; the context,
live before the tick, is cancelled after it. -/
theorem C8_raced_ok_tick_cancels :
    (Event.tickRaced (5 * Minute) checkOk (some "webhook registration failed")).okTick
      sampleLookahead (certInfo Flags.defaults) "localhost" = true ∧
    freshState.cancelled = false ∧
    (watchdogStep sampleLookahead (certInfo Flags.defaults) "localhost" freshState
      (Event.tickRaced (5 * Minute) checkOk (some "webhook registration failed"))).cancelled = true ∧
    cancelCalls (watchdogStep sampleLookahead (certInfo Flags.defaults) "localhost" freshState
      (Event.tickRaced (5 * Minute) checkOk (some "webhook registration failed"))).trace = 1 := by
  decide

/-- C9, the code at the failing input: a tick of the watchdog assigns the `err`
variable of `Run` (here from `nil` to the validation error); placed between the
assignment and the test of a webhook registration that succeeded, that tick
makes the bootstrap thread take the failure branch and exit. -/
theorem C9_watchdog_tick_writes_err :
    freshState.err = none ∧
    (watchdogStep sampleLookahead (certInfo Flags.defaults) "localhost" freshState
      (Event.tick (5 * Minute) checkBad)).err = some "certificate is not valid" ∧
    (setupTest "ExternalSecret-v1beta1"
      (setupAssign envAllOk "ExternalSecret-v1beta1" freshState)).exitCode = none ∧
    (setupTest "ExternalSecret-v1beta1"
      (watchdogStep sampleLookahead (certInfo Flags.defaults) "localhost"
        (setupAssign envAllOk "ExternalSecret-v1beta1" freshState)
        (Event.tick (5 * Minute) checkBad))).exitCode = some 1 := by
  decide

/-- C10, the code at the failing input: a tick whose validation fails logs
"certs are valid" after invoking `cancel()`. -/
theorem C10_valid_note_after_failed_validation :
    (watchdogStep sampleLookahead (certInfo Flags.defaults) "localhost" freshState
      (Event.tick (5 * Minute) checkBad)).trace =
      [Effect.info "validating certs",
       Effect.checkCerts (certInfo Flags.defaults) "localhost"
         (5 * Minute + (sampleLookahead + Minute)),
       Effect.cancel,
       Effect.info "certs are valid"] := by
  decide

end Webhook
